import Mathlib

/-!
Verification development for the PingPals-Slave uptime-monitoring
repository.  The definitions below are a shallow embedding of the
TypeScript sources: the storage engine (Storage in the state file),
the check-execution engine (UptimeMonitor.checkHttpService and
UptimeMonitor.checkIcmpService in both variants of the monitor file),
and the slave scheduler (UptimeSlave).  Timestamps and durations are
exact integers; the only inexact JavaScript arithmetic the claims touch
is the division inside calculateUptimePercentages, which is modelled
with an explicit NaN / infinity carrier so that the divide-by-zero
behaviour of the source is preserved.  Network and process effects are
modelled by passing the observed probe outcomes explicitly.
-/

namespace PingPals

/-- Result values of the JavaScript number arithmetic used by
calculateUptimePercentages.  Finite values are exact rationals (float
rounding noise is abstracted away; the claims under study concern NaN and
whole percentage points, not ulps); NaN and the signed infinities, which
the source can produce by dividing by a zero time window, are explicit. -/
inductive JsNum where
  | nan
  | negInf
  | posInf
  | fin (q : ℚ)
deriving DecidableEq, Repr

/-- JavaScript evaluation of ((num / den) * 100) for exact integer
operands: 0/0 is NaN, x/0 for nonzero x is a signed infinity, and
multiplying by the positive constant 100 preserves NaN and the
infinities.  For a nonzero denominator the value is exact. -/
def jsPercent (num den : ℤ) : JsNum :=
  if den = 0 then
    if num = 0 then .nan
    else if 0 < num then .posInf
    else .negInf
  else .fin (100 * (num : ℚ) / (den : ℚ))

/-- Math.min on two exact integers. -/
def jsMinInt (a b : ℤ) : ℤ := if a ≤ b then a else b

/-- Math.max on two exact integers. -/
def jsMaxInt (a b : ℤ) : ℤ := if a ≤ b then b else a

/-- Math.min on two exact rationals. -/
def jsMinQ (a b : ℚ) : ℚ := if a ≤ b then a else b

/-- Math.max on two exact rationals. -/
def jsMaxQ (a b : ℚ) : ℚ := if a ≤ b then b else a

/-- Math.max(0, Math.min(100, x)) exactly as the storage code applies it:
Math.min and Math.max propagate NaN, so NaN passes through unclamped,
while the infinities are clamped to the nearer bound. -/
def jsClamp0100 : JsNum → JsNum
  | .nan => .nan
  | .negInf => .fin 0
  | .posInf => .fin 100
  | .fin q => .fin (jsMaxQ 0 (jsMinQ 100 q))

/-- JavaScript (x || d) for a nullable number: null and 0 are falsy. -/
def jsOrNum (x : Option ℤ) (d : ℤ) : ℤ :=
  match x with
  | none => d
  | some v => if v = 0 then d else v

/-- JavaScript (x || d) for a nullable string: null and the empty string
are falsy. -/
def jsOrStr (x : Option String) (d : String) : String :=
  match x with
  | none => d
  | some s => if s = "" then d else s

/-- Membership of a JavaScript number in the closed range [0, 100].  NaN
and the infinities are outside (in JavaScript, NaN compared with anything
is false). -/
def jsWithin0100 : JsNum → Bool
  | .fin q => decide ((0 : ℚ) ≤ q ∧ q ≤ 100)
  | _ => false

/-- MonitorType from the types file. -/
inductive MonitorType where
  | http
  | icmp
deriving DecidableEq, Repr

/-- ServiceConfig from the types file: the union of HttpServiceConfig
(which has url) and IcmpServiceConfig (which has host), flattened into a
single record with optional url and host. -/
structure ServiceConfig where
  id : String
  name : String
  type : MonitorType
  interval : ℕ
  timeout : ℕ
  url : Option String
  host : Option String
deriving DecidableEq, Repr

/-- DowntimePeriod from the types file; end_ plays the role of the source
field named end (None models the JavaScript null of a still-open
period). -/
structure DowntimePeriod where
  start : ℤ
  end_ : Option ℤ
deriving DecidableEq, Repr

/-- ServiceStatus from the types file.  The two percentage fields are
JavaScript numbers because calculateUptimePercentages can write NaN into
them. -/
structure ServiceStatus where
  id : String
  name : String
  type : MonitorType
  url : Option String
  host : Option String
  interval : ℕ
  timeout : ℕ
  createdAt : ℤ
  lastCheck : ℤ
  lastStatus : Bool
  uptimePercentage : JsNum
  uptimePercentage30d : JsNum
  assignedSlaves : List String
  lastDowntime : Option DowntimePeriod
  downtimePeriods : List DowntimePeriod
deriving DecidableEq, Repr

/-- Optional stats block of SlaveStatus. -/
structure SlaveStats where
  cpuUsage : Option ℚ
  memoryUsage : Option ℚ
  uptime : Option ℚ
deriving DecidableEq, Repr

/-- SlaveStatus from the types file. -/
structure SlaveStatus where
  id : String
  name : Option String
  lastHeartbeat : ℤ
  isActive : Bool
  services : List String
  host : Option String
  port : Option ℕ
  region : Option String
  datacenter : Option String
  version : Option String
  stats : Option SlaveStats
deriving DecidableEq, Repr

/-- The services member of StorageData. -/
structure StorageServices where
  configs : List ServiceConfig
  status : List ServiceStatus
deriving DecidableEq, Repr

/-- StorageData from the storage file: the unit of durable persistence. -/
structure StorageData where
  services : StorageServices
  slaves : List SlaveStatus
  lastUpdated : ℤ
deriving DecidableEq, Repr

/-- MonitoringResult from the types file. -/
structure MonitoringResult where
  serviceId : String
  timestamp : ℤ
  success : Bool
  duration : ℕ
  error : Option String
deriving DecidableEq, Repr

/-- The observable state of the persisted monitor-state.json file.
corrupt stands for file contents on which JSON.parse throws; stored d for
contents that parse back to the structured document d (JSON
serialisation and deserialisation of a well-formed document is treated as
the identity at this boundary). -/
inductive FileState where
  | missing
  | corrupt
  | stored (d : StorageData)
deriving DecidableEq, Repr

/-- The two error conditions the storage read paths distinguish:
an ENOENT from readFile, and a SyntaxError thrown by JSON.parse. -/
inductive StorageError where
  | fileMissing
  | parseFailure
deriving DecidableEq, Repr

/-- Storage.initializeEmptyState: the empty document, stamped with the
current time (the source calls Date.now(), passed here explicitly). -/
def initializeEmptyState (now : ℤ) : StorageData :=
  { services := { configs := [], status := [] }, slaves := [], lastUpdated := now }

/-- Storage.loadState: readFile then JSON.parse, returning the empty
document only when readFile fails with ENOENT; any other error (in
particular a JSON.parse SyntaxError on corrupt contents) is rethrown.
On success the source spreads the parsed document over the empty one;
for a complete stored document that merge is the document itself. -/
def loadState (fs : FileState) (now : ℤ) : Except StorageError StorageData :=
  match fs with
  | .missing => .ok (initializeEmptyState now)
  | .corrupt => .error .parseFailure
  | .stored d => .ok d

/-- Storage.save: stamps lastUpdated with Date.now() (passed here
explicitly) on the document being written, then writes it; the resulting
file state is the stored stamped document. -/
def save (d : StorageData) (now : ℤ) : FileState :=
  .stored { d with lastUpdated := now }

/-- Storage.load: readFile then JSON.parse with no fallback; a missing
file and corrupt contents both propagate as errors. -/
def load (fs : FileState) : Except StorageError StorageData :=
  match fs with
  | .missing => .error .fileMissing
  | .corrupt => .error .parseFailure
  | .stored d => .ok d

/-- Outcome of Storage.initialize: the in-memory document it leaves
behind, and whether the corrupt-file warning was logged. -/
structure InitializeResult where
  data : StorageData
  warned : Bool
deriving DecidableEq, Repr

/-- Storage.initialize: a missing file yields the empty document; corrupt
contents are caught by the inner try, a warning is logged, and the empty
document is kept; parseable contents are spread over the empty document
(the identity for a complete document). -/
def initializeStorage (fs : FileState) (now : ℤ) : InitializeResult :=
  match fs with
  | .missing => { data := initializeEmptyState now, warned := false }
  | .corrupt => { data := initializeEmptyState now, warned := true }
  | .stored d => { data := d, warned := false }

/-- The fresh ServiceStatus that Storage.addService builds for a config:
100 percent uptime, no downtime periods, url kept only for http services
and host only for icmp services, createdAt and lastCheck stamped with the
current time. -/
def freshServiceStatus (service : ServiceConfig) (now : ℤ) : ServiceStatus :=
  { id := service.id
    name := service.name
    type := service.type
    url := if service.type = .http then service.url else none
    host := if service.type = .icmp then service.host else none
    interval := service.interval
    timeout := service.timeout
    createdAt := now
    lastCheck := now
    lastStatus := true
    uptimePercentage := .fin 100
    uptimePercentage30d := .fin 100
    assignedSlaves := []
    lastDowntime := none
    downtimePeriods := [] }

/-- Storage.addService: builds the fresh ServiceStatus for the config and
pushes it onto services.status.  The configs list is not touched by this
method. -/
def addService (state : StorageData) (service : ServiceConfig) (now : ℤ) :
    StorageData :=
  { state with
      services :=
        { state.services with
            status := state.services.status ++ [freshServiceStatus service now] } }

/-- Storage.removeService: filters the id out of both the configs list
and the status list. -/
def removeService (state : StorageData) (serviceId : String) : StorageData :=
  { state with
      services :=
        { configs := state.services.configs.filter (fun s => s.id != serviceId)
          status := state.services.status.filter (fun s => s.id != serviceId) } }

/-- Thirty days in milliseconds, as the source computes it. -/
def thirtyDaysMs : ℤ := 30 * 24 * 60 * 60 * 1000

/-- Storage.calculateUptimePercentages, line by line.  The downtime of an
open period (end null) is counted up to currentTime via the JavaScript
or-else; the 30-day sum first filters to periods whose start lies at or
after the window boundary and only then clips the start to the boundary;
the window denominator is the minimum of total elapsed time and thirty
days; both percentages pass through the Math.max / Math.min clamp. -/
def calculateUptimePercentages (service : ServiceStatus) (currentTime : ℤ) :
    JsNum × JsNum :=
  let thirtyDaysAgo := currentTime - thirtyDaysMs
  let totalTime := currentTime - service.createdAt
  let totalDowntimeMs := service.downtimePeriods.foldl
    (fun acc period => acc + (jsOrNum period.end_ currentTime - period.start)) 0
  let totalUptimePercentage := jsPercent (totalTime - totalDowntimeMs) totalTime
  let recent30dDowntimeMs :=
    (service.downtimePeriods.filter
        (fun period => decide (thirtyDaysAgo ≤ period.start))).foldl
      (fun acc period =>
        acc + (jsOrNum period.end_ currentTime - jsMaxInt period.start thirtyDaysAgo)) 0
  let timeWindow30d := jsMinInt totalTime (currentTime - thirtyDaysAgo)
  let uptime30dPercentage :=
    jsPercent (timeWindow30d - recent30dDowntimeMs) timeWindow30d
  (jsClamp0100 totalUptimePercentage, jsClamp0100 uptime30dPercentage)

/-- A save request scheduled by Storage.debouncedSave: the time at which
the pending setTimeout will fire and the document captured by the closure
at request time. -/
structure PendingSave where
  fireAt : ℤ
  state : StorageData
deriving DecidableEq, Repr

/-- The debounce window of Storage (saveDebounceMs = 5000). -/
def saveDebounceMs : ℤ := 5000

/-- The physical write performed when a pending debounced save fires:
Storage.save stamps lastUpdated with the fire time and writes the
captured document. -/
def performSave (p : PendingSave) : ℤ × StorageData :=
  (p.fireAt, { p.state with lastUpdated := p.fireAt })

/-- One call to Storage.debouncedSave processed by the single-threaded
event loop.  The accumulator carries the physical writes performed so far
and the pending timer.  If a pending timer would already have fired by
the time of the new request, its write is performed first; otherwise the
new request clears the pending timer (clearTimeout) before scheduling its
own, one full window after itself. -/
def debounceStep (acc : List (ℤ × StorageData) × Option PendingSave)
    (req : ℤ × StorageData) : List (ℤ × StorageData) × Option PendingSave :=
  match acc with
  | (writes, some p) =>
      if p.fireAt ≤ req.1 then
        (writes ++ [performSave p], some ⟨req.1 + saveDebounceMs, req.2⟩)
      else
        (writes, some ⟨req.1 + saveDebounceMs, req.2⟩)
  | (writes, none) => (writes, some ⟨req.1 + saveDebounceMs, req.2⟩)

/-- The physical writes produced by a sequence of debouncedSave requests
(each a request time paired with the document passed to the call), letting
time run on after the last request so that the final pending timer
fires. -/
def processRequests (reqs : List (ℤ × StorageData)) : List (ℤ × StorageData) :=
  match reqs.foldl debounceStep ([], none) with
  | (writes, none) => writes
  | (writes, some p) => writes ++ [performSave p]

/-- All the requests of the list fall inside one debounce window: each
request arrives strictly less than saveDebounceMs after the previous
one, hence strictly before the timer the previous request scheduled
would fire. -/
def withinWindow : List (ℤ × StorageData) → Bool
  | [] => true
  | [_] => true
  | a :: b :: rest => decide (b.1 < a.1 + saveDebounceMs) && withinWindow (b :: rest)

/-- JSON values, as produced by response.json() in the part_002 variant
of checkHttpService. -/
inductive Json where
  | null
  | bool (b : Bool)
  | num (q : ℚ)
  | str (s : String)
  | arr (elems : List Json)
  | obj (fields : List (String × Json))

/-- The JavaScript typeof operator on a JSON value (typeof null and
typeof an array are both the string object). -/
def jsTypeof : Json → String
  | .null => "object"
  | .bool _ => "boolean"
  | .num _ => "number"
  | .str _ => "string"
  | .arr _ => "object"
  | .obj _ => "object"

/-- JavaScript property access item.k on a JSON value.  Accessing a
property of null throws a TypeError (outer none); on an object the last
binding of the key wins (as after JSON.parse); on any other value the
property is undefined (inner none). -/
def jsGetProp : Json → String → Option (Option Json)
  | .null, _ => none
  | .obj fields, k => some ((fields.reverse).lookup k)
  | _, _ => some none

/-- The typeof of a property of a non-null value (undefined properties
have typeof undefined). -/
def jsTypeofProp (item : Json) (k : String) : Option String :=
  (jsGetProp item k).map fun v =>
    match v with
    | none => "undefined"
    | some j => jsTypeof j

/-- Strict equality of a property with a string literal. -/
def jsPropEqStr (item : Json) (k : String) (s : String) : Bool :=
  match jsGetProp item k with
  | some (some (.str t)) => t = s
  | _ => false

/-- Array.isArray applied to a property. -/
def jsPropIsArray (item : Json) (k : String) : Bool :=
  match jsGetProp item k with
  | some (some (.arr _)) => true
  | _ => false

/-- The element validation predicate of the part_002 checkHttpService,
exactly as the every callback writes it.  none models the callback
throwing: the only throwing case is a null element, which passes the
typeof item check and then throws on the item.id access.  Elements whose
typeof is not object fail the first conjunct without any property
access. -/
def checkItem (item : Json) : Option Bool :=
  if jsTypeof item = "object" then
    match item with
    | .null => none
    | _ =>
        some (decide (jsTypeofProp item "id" = some "string") &&
          decide (jsTypeofProp item "name" = some "string") &&
          decide (jsTypeofProp item "type" = some "string") &&
          (jsPropEqStr item "type" "http" || jsPropEqStr item "type" "icmp") &&
          decide (jsTypeofProp item "interval" = some "number") &&
          decide (jsTypeofProp item "timeout" = some "number") &&
          decide (jsTypeofProp item "lastStatus" = some "boolean") &&
          jsPropIsArray item "assignedSlaves")
  else some false

/-- Array.prototype.every with the checkItem callback: stops at the first
false, and a throw inside the callback propagates (none). -/
def jsEvery : List Json → Option Bool
  | [] => some true
  | x :: xs =>
      match checkItem x with
      | none => none
      | some false => some false
      | some true => jsEvery xs

/-- Outcome of response.json() on a resolved fetch: either the body fails
to parse as JSON (the await throws) or it parses to a JSON value. -/
inductive BodyParse where
  | malformed
  | value (j : Json)

/-- What one probe attempt of the part_001 checkHttpService observes:
either fetch resolves with a response (status and statusText) or it
throws (network error, or the AbortController firing).  elapsed is the
wall time the attempt took. -/
inductive HttpAttempt1 where
  | resolves (status : ℕ) (statusText : String) (elapsed : ℕ)
  | throws (message : String) (elapsed : ℕ)
deriving DecidableEq, Repr

/-- Response.ok of the fetch API: status in the range 200 to 299. -/
def respOk (status : ℕ) : Bool := 200 ≤ status && status ≤ 299

/-- Summary of one whole execution of a check loop: how many probe
attempts actually ran, the success flag and error variable at loop exit,
the duration recorded in the result, and the total time spent in
inter-retry sleeps. -/
structure CheckRun where
  attemptsMade : ℕ
  success : Bool
  error : Option String
  duration : ℕ
  sleepMs : ℕ
deriving DecidableEq, Repr

/-- The retry loop of the part_001 checkHttpService over the list of
probe-attempt outcomes (one list element per loop iteration the source
would run, so the list length is the retryAttempts budget).  A resolved
fetch always breaks out of the loop, recording success = response.ok and
on a non-ok status the error HTTP status: statusText; a thrown error
breaks on the last attempt and otherwise sleeps 1000 milliseconds and
retries.  The recorded duration is endTime minus startTime: everything
elapsed since the check began, sleeps included. -/
def httpLoop1 (made attemptMs sleepAcc : ℕ) : List HttpAttempt1 → CheckRun
  | [] => ⟨made, false, none, attemptMs + sleepAcc, sleepAcc⟩
  | .resolves st txt dt :: _ =>
      ⟨made + 1, respOk st,
        if respOk st then none else some ("HTTP " ++ toString st ++ ": " ++ txt),
        attemptMs + dt + sleepAcc, sleepAcc⟩
  | .throws msg dt :: rest =>
      match rest with
      | [] => ⟨made + 1, false, some msg, attemptMs + dt + sleepAcc, sleepAcc⟩
      | _ :: _ => httpLoop1 (made + 1) (attemptMs + dt) (sleepAcc + 1000) rest

/-- The part_001 checkHttpService on a given sequence of probe
outcomes. -/
def checkHttpService1 (attempts : List HttpAttempt1) : CheckRun :=
  httpLoop1 0 0 0 attempts

/-- What one probe attempt of the part_002 checkHttpService observes: a
resolved fetch carries the status, statusText, parsed body outcome and
the wall time of the request itself; a thrown error carries the error
name and message (used by the timeout and TLS classification) and the
wall time of the failed attempt. -/
inductive HttpAttempt2 where
  | resolves (status : ℕ) (statusText : String) (body : BodyParse) (elapsed : ℕ)
  | throws (name message : String) (elapsed : ℕ)

/-- Substring containment, used for the includes checks of the error
classification. -/
def strContains (s pat : String) : Bool := 1 < (s.splitOn pat).length

/-- The catch-branch error classification of the part_002
checkHttpService. -/
def classifyError (name msg : String) : String :=
  if name = "AbortError" || strContains msg "timeout" || strContains msg "abort" then
    "Request timed out"
  else if strContains msg "TLS" || strContains msg "SSL" || strContains msg "CERT" then
    "TLS connection failed"
  else msg

/-- The resolved-response handling of the part_002 checkHttpService:
only status 200 goes on to parse the body; the body must be a JSON array
every element of which passes checkItem (a throw inside json() or inside
every reports Invalid JSON response); any other status yields the error
HTTP status: statusText.  Returns the success flag and error variable. -/
def handleResponse2 (status : ℕ) (statusText : String) (body : BodyParse) :
    Bool × Option String :=
  if status = 200 then
    match body with
    | .malformed => (false, some "Invalid JSON response")
    | .value j =>
        match j with
        | .arr elems =>
            match jsEvery elems with
            | none => (false, some "Invalid JSON response")
            | some true => (true, none)
            | some false => (false, some "Invalid response data format")
        | _ => (false, some "Response is not an array of services")
  else (false, some ("HTTP " ++ toString status ++ ": " ++ statusText))

/-- The retry loop of the part_002 checkHttpService.  The accumulator
elapsed is the time since the whole check started, sleeps included.  A
resolved fetch breaks and records duration = the wall time of that fetch
alone; a thrown error sets duration = time since the check started, and
either breaks (last attempt) or sleeps 1000 milliseconds and retries. -/
def httpLoop2 (made elapsed sleepAcc : ℕ) : List HttpAttempt2 → CheckRun
  | [] => ⟨made, false, none, 0, sleepAcc⟩
  | .resolves st txt body dt :: _ =>
      { attemptsMade := made + 1
        success := (handleResponse2 st txt body).1
        error := (handleResponse2 st txt body).2
        duration := dt
        sleepMs := sleepAcc }
  | .throws name msg dt :: rest =>
      match rest with
      | [] => ⟨made + 1, false, some (classifyError name msg), elapsed + dt, sleepAcc⟩
      | _ :: _ => httpLoop2 (made + 1) (elapsed + dt + 1000) (sleepAcc + 1000) rest

/-- The part_002 checkHttpService on a given sequence of probe
outcomes. -/
def checkHttpService2 (attempts : List HttpAttempt2) : CheckRun :=
  httpLoop2 0 0 0 attempts

/-- The final MonitoringResult assembly of the part_002 checkHttpService
applies error or-else Unknown error to the error variable. -/
def toMonitoringResult2 (serviceId : String) (now : ℤ) (r : CheckRun) :
    MonitoringResult :=
  { serviceId := serviceId, timestamp := now, success := r.success,
    duration := r.duration, error := some (jsOrStr r.error "Unknown error") }

/-- What one attempt of the ICMP check observes: the ping helper resolves
with an alive flag and optional error output, or the attempt throws (in
the source, the type guard inside the try). -/
inductive IcmpAttempt where
  | pings (alive : Bool) (errOut : Option String) (elapsed : ℕ)
  | throws (message : String) (elapsed : ℕ)
deriving DecidableEq, Repr

/-- The permission-denied rewrite of the part_002 checkIcmpService. -/
def permissionRewrite (e : Option String) : Option String :=
  match e with
  | none => none
  | some s =>
      if strContains s.toLower "permission denied" then
        some "Permission denied for ICMP check. Configure sudo privileges."
      else some s

/-- The retry loop of the part_002 checkIcmpService.  A resolved ping
always breaks (success = alive, with the error output or-else a default
message, then the permission rewrite); a thrown error breaks on the last
attempt and otherwise sleeps 1000 milliseconds.  The recorded duration is
endTime minus startTime: everything elapsed since the check began, sleeps
included. -/
def icmpLoop2 (made elapsed sleepAcc : ℕ) : List IcmpAttempt → CheckRun
  | [] => ⟨made, false, none, elapsed, sleepAcc⟩
  | .pings alive errOut dt :: _ =>
      ⟨made + 1, alive,
        permissionRewrite
          (if alive then none
           else some (jsOrStr errOut "Host is not responding to ICMP")),
        elapsed + dt, sleepAcc⟩
  | .throws msg dt :: rest =>
      match rest with
      | [] => ⟨made + 1, false, some msg, elapsed + dt, sleepAcc⟩
      | _ :: _ => icmpLoop2 (made + 1) (elapsed + dt + 1000) (sleepAcc + 1000) rest

/-- The part_002 checkIcmpService on a given sequence of attempt
outcomes. -/
def checkIcmpService2 (attempts : List IcmpAttempt) : CheckRun :=
  icmpLoop2 0 0 0 attempts

/-- The wall time of one ICMP attempt. -/
def icmpAttemptElapsed : IcmpAttempt → ℕ
  | .pings _ _ dt => dt
  | .throws _ dt => dt

/-- Time spent on a run of failed attempts before the deciding one: their
own wall times plus one 1000 millisecond sleep after each. -/
def icmpElapsedBudget (pre : List IcmpAttempt) : ℕ :=
  (pre.map icmpAttemptElapsed).sum + 1000 * pre.length

/-- Worker-side scheduler state of UptimeSlave: the ids with a live cron
task (the tasks map), the checks currently in flight (cron callbacks or
the initial check of addService that have started but not yet completed),
and the service ids of the reports sent to the master so far. -/
structure SlaveState where
  tasks : List String
  inFlight : List String
  reports : List String
deriving DecidableEq, Repr

/-- Events of the slave event loop.  addSvc is UptimeSlave.addService
(registers the cron task and starts the immediate first check); tick is a
cron tick firing for a scheduled task; complete is an in-flight check
settling, whose callback then calls sendReport; removeSvc is
UptimeSlave.removeService (task.stop plus deletion from the maps). -/
inductive SlaveEvent where
  | addSvc (id : String)
  | tick (id : String)
  | complete (id : String)
  | removeSvc (id : String)
deriving DecidableEq, Repr

/-- One step of the slave event loop, as UptimeSlave implements it.  A
tick only spawns a check while the task is registered; removal only stops
the task; a completing check sends its report unconditionally, with no
is-this-service-still-registered guard before sendReport. -/
def slaveStep (s : SlaveState) : SlaveEvent → SlaveState
  | .addSvc id =>
      { s with tasks := s.tasks ++ [id], inFlight := s.inFlight ++ [id] }
  | .tick id =>
      if id ∈ s.tasks then { s with inFlight := s.inFlight ++ [id] } else s
  | .complete id =>
      if id ∈ s.inFlight then
        { s with inFlight := s.inFlight.erase id, reports := s.reports ++ [id] }
      else s
  | .removeSvc id => { s with tasks := s.tasks.filter (fun t => t != id) }

/-- Run the slave event loop over a sequence of events. -/
def runSlave (s : SlaveState) (events : List SlaveEvent) : SlaveState :=
  events.foldl slaveStep s

/-- The slave state before any service is registered. -/
def initialSlaveState : SlaveState := ⟨[], [], []⟩

/-- The invariant claimed by the spec, in its own words: every
ServiceStatus id in the stored state has a corresponding ServiceConfig id
in the stored configs. -/
def specStatusConfigInv (s : StorageData) : Bool :=
  s.services.status.all fun st =>
    s.services.configs.any fun c => c.id == st.id

/-- The reverse correspondence, the direction the storage code actually
preserves: every ServiceConfig id in the stored configs has a
corresponding ServiceStatus id. -/
def configStatusInv (s : StorageData) : Bool :=
  s.services.configs.all fun c =>
    s.services.status.any fun st => st.id == c.id

/-- The two mutating operations of the coordinator store that the
invariant claim ranges over. -/
inductive StorageOp where
  | add (service : ServiceConfig) (now : ℤ)
  | remove (id : String)
deriving Repr

/-- Apply one store operation. -/
def applyOp (s : StorageData) : StorageOp → StorageData
  | .add service now => addService s service now
  | .remove id => removeService s id

/-- Apply a sequence of store operations. -/
def applyOps (s : StorageData) (ops : List StorageOp) : StorageData :=
  ops.foldl applyOp s

/-- A probe outcome in which the endpoint answers HTTP 500 (part_001
attempt shape). -/
def resolve500 : HttpAttempt1 := .resolves 500 "Internal Server Error" 10

/-- A probe outcome in which the endpoint answers HTTP 500 (part_002
attempt shape). -/
def resolve500v2 : HttpAttempt2 := .resolves 500 "Internal Server Error" .malformed 10

/-- A service looked at in the same millisecond it was created: zero
elapsed lifetime and no downtime periods. -/
def zeroElapsedService : ServiceStatus :=
  { id := "svc", name := "svc", type := .http, url := some "http://example.com",
    host := none, interval := 60, timeout := 1000, createdAt := 5, lastCheck := 5,
    lastStatus := true, uptimePercentage := .fin 100,
    uptimePercentage30d := .fin 100, assignedSlaves := [], lastDowntime := none,
    downtimePeriods := [] }

/-- A service created 4000000000 ms before the reading with a single open
downtime period that began 3000000000 ms before the reading, which is
before the 30-day window boundary (the window is 2592000000 ms), so the
service has been down for the entire 30-day window. -/
def prewindowService : ServiceStatus :=
  { zeroElapsedService with
      id := "old", name := "old", createdAt := 0,
      downtimePeriods := [{ start := 1000000000, end_ := none }] }

/-- A concrete HTTP service config used by the store counterexamples. -/
def cfgA : ServiceConfig :=
  { id := "a", name := "Service A", type := .http, interval := 60,
    timeout := 1000, url := some "http://a.example", host := none }

/-- A store state holding one config and its matching status, both with
id b: a state in which the config-to-status correspondence holds. -/
def pairedState : StorageData :=
  { services :=
      { configs := [{ id := "b", name := "Service B", type := .http,
                      interval := 60, timeout := 1000,
                      url := some "http://b.example", host := none }]
        status := [{ zeroElapsedService with id := "b", name := "Service B" }] }
    slaves := [], lastUpdated := 0 }

/-- A part_002 HTTP attempt outcome that is a thrown error. -/
def isThrows2 (a : HttpAttempt2) : Prop :=
  ∃ name msg dt, a = HttpAttempt2.throws name msg dt

/-- An ICMP attempt outcome that is a thrown error. -/
def isThrowsIcmp (a : IcmpAttempt) : Prop :=
  ∃ msg dt, a = IcmpAttempt.throws msg dt

/-- Claim C2 (code bug): at currentTime equal to createdAt with no
downtime periods, calculateUptimePercentages divides zero by zero, the
JavaScript result is NaN for both the lifetime and the 30-day
percentage, NaN passes through the Math.max / Math.min clamp, and NaN is
not in the closed interval [0, 100] — the source has no divide-by-zero
guard, so the claimed bound fails at zero elapsed time. -/
theorem claim2_nan_at_zero_elapsed :
    calculateUptimePercentages zeroElapsedService 5 = (JsNum.nan, JsNum.nan) ∧
    jsWithin0100 JsNum.nan = false := by
  constructor
  · rfl
  · rfl

/-- Claim C4 (code bug): a downtime period that started before the 30-day
window boundary and is still open is dropped entirely by the filter
(period.start at or after the boundary) before the clipping Math.max can
ever apply, so the code reports a 30-day uptime of 100 percent for a
service that was down throughout the window (the clipped contribution the
claim describes would make it 0 percent); the lifetime figure of 25
percent confirms the outage is real. -/
theorem claim4_prewindow_downtime_ignored :
    (calculateUptimePercentages prewindowService 4000000000).2 = JsNum.fin 100 ∧
    (calculateUptimePercentages prewindowService 4000000000).1 = JsNum.fin 25 := by
  norm_num [calculateUptimePercentages, prewindowService, zeroElapsedService,
    thirtyDaysMs, jsOrNum, jsMinInt, jsMaxInt, jsMinQ, jsMaxQ, jsPercent,
    jsClamp0100, List.filter, List.foldl]

/-- Claim C5, counterexample: on a file whose contents JSON.parse cannot
parse, Storage.loadState rethrows the parse error (its catch only absorbs
ENOENT) and Storage.load rethrows as well, so loading a corrupt snapshot
does raise, contrary to the claim. -/
theorem claim5_counterexample :
    loadState FileState.corrupt 0 = Except.error StorageError.parseFailure ∧
    load FileState.corrupt = Except.error StorageError.parseFailure :=
  ⟨rfl, rfl⟩

/-- Claim C5, amended: a missing snapshot file is tolerated by loadState
(empty snapshot) and by initialize (empty snapshot, no warning), and a
stored document loads back intact; but corrupt contents are tolerated
only by initialize, which keeps the empty snapshot and logs the warning,
while loadState and load both propagate the parse error, and load also
propagates a missing file. -/
theorem claim5_amended_load_behaviour :
    ∀ (d : StorageData) (now : ℤ),
      loadState FileState.missing now = Except.ok (initializeEmptyState now) ∧
      loadState (FileState.stored d) now = Except.ok d ∧
      loadState FileState.corrupt now = Except.error StorageError.parseFailure ∧
      initializeStorage FileState.missing now =
        { data := initializeEmptyState now, warned := false } ∧
      initializeStorage FileState.corrupt now =
        { data := initializeEmptyState now, warned := true } ∧
      load FileState.missing = Except.error StorageError.fileMissing ∧
      load FileState.corrupt = Except.error StorageError.parseFailure :=
  fun _ _ => ⟨rfl, rfl, rfl, rfl, rfl, rfl, rfl⟩

/-- Claim C7, counterexample: save stamps lastUpdated with the save time
before writing, so saving a snapshot whose lastUpdated is 0 at time 1 and
loading returns a snapshot differing from the original in lastUpdated —
the round trip is not the identity on that field. -/
theorem claim7_counterexample :
    load (save (initializeEmptyState 0) 1) ≠
      Except.ok (initializeEmptyState 0) := by
  intro h
  have h2 : ({ initializeEmptyState 0 with lastUpdated := 1 } : StorageData) =
      initializeEmptyState 0 := by
    exact Except.ok.inj h
  have h3 : (1 : ℤ) = 0 := congrArg StorageData.lastUpdated h2
  exact absurd h3 (by decide)

/-- Claim C7, amended: the save and load round trip returns the snapshot
with every field intact except lastUpdated, which save overwrites with
the save time: load after save yields the saved snapshot with lastUpdated
set to the time of the save. -/
theorem claim7_amended_roundtrip :
    ∀ (d : StorageData) (now : ℤ),
      load (save d now) = Except.ok { d with lastUpdated := now } :=
  fun _ _ => rfl

/-- Claim C8, counterexample: Storage.addService pushes only the fresh
ServiceStatus onto services.status and never touches services.configs, so
already after one addService on the empty store there is a ServiceStatus
id with no corresponding ServiceConfig id, and the claimed invariant is
false. -/
theorem claim8_counterexample :
    specStatusConfigInv (addService (initializeEmptyState 0) cfgA 0) = false := by
  rfl

/-- Claim C9, counterexample: a check spawned while the service was
registered but still in flight when UptimeSlave.removeService completes
is reported anyway, because the cron callback calls sendReport with no
is-this-service-still-registered guard.  After addSvc a, complete a,
tick a, removeSvc a the reports are [a]; letting the in-flight check
complete after the removal appends a second report for a. -/
theorem claim9_counterexample :
    (runSlave initialSlaveState
        [SlaveEvent.addSvc "a", SlaveEvent.complete "a", SlaveEvent.tick "a",
         SlaveEvent.removeSvc "a"]).reports = ["a"] ∧
    (runSlave initialSlaveState
        [SlaveEvent.addSvc "a", SlaveEvent.complete "a", SlaveEvent.tick "a",
         SlaveEvent.removeSvc "a", SlaveEvent.complete "a"]).reports =
      ["a", "a"] := by
  constructor
  · rfl
  · rfl

/-- Claim C1, counterexample: with a retry budget of 3 and every probe
attempt observing an HTTP 500 response, checkHttpService (part_001
variant; the part_002 variant is shown alongside) makes exactly one probe
attempt and sleeps for no inter-retry delay at all, because a resolved
fetch — whatever its status — breaks out of the retry loop; the claimed
three attempts with two 1000 ms delays do not happen. -/
theorem claim1_counterexample :
    checkHttpService1 [resolve500, resolve500, resolve500] =
      { attemptsMade := 1, success := false,
        error := some "HTTP 500: Internal Server Error", duration := 10,
        sleepMs := 0 } ∧
    ¬ ((checkHttpService1 [resolve500, resolve500, resolve500]).attemptsMade = 3 ∧
        (checkHttpService1 [resolve500, resolve500, resolve500]).sleepMs = 2000) ∧
    (checkHttpService2 [resolve500v2, resolve500v2, resolve500v2]).attemptsMade
      = 1 := by
  refine ⟨rfl, ?_, rfl⟩
  intro h
  exact absurd h.1 (by decide)

/-- Claim C3, counterexample: an ICMP check whose first attempt throws
after 50 ms, sleeps the fixed 1000 ms, and whose second attempt resolves
alive after 30 ms reports duration 1080 — the cumulative time since the
check began — not the 30 ms wall time of the deciding attempt, so the
claimed both-paths convention is false on the ICMP path. -/
theorem claim3_counterexample :
    (checkIcmpService2
        [IcmpAttempt.throws "boom" 50, IcmpAttempt.pings true none 30]).duration
      = 1080 ∧ (1080 : ℕ) ≠ 30 :=
  ⟨rfl, by decide⟩

/-- Helper for claim C3: in the part_002 HTTP loop, when every attempt
before the deciding one threw, a resolving attempt records as duration
the wall time of its own fetch alone, whatever the accumulators hold. -/
theorem httpLoop2_duration_of_resolve (pre : List HttpAttempt2) (st : ℕ)
    (txt : String) (body : BodyParse) (dt : ℕ) (post : List HttpAttempt2) :
    (∀ a ∈ pre, isThrows2 a) →
    ∀ made elapsed sleepAcc,
      (httpLoop2 made elapsed sleepAcc
          (pre ++ HttpAttempt2.resolves st txt body dt :: post)).duration = dt := by
  induction pre with
  | nil => intro _ made elapsed sleepAcc; rfl
  | cons a pre ih =>
      intro h made elapsed sleepAcc
      obtain ⟨name, msg, adt, rfl⟩ := h a (List.mem_cons_self a pre)
      have hrest : ∀ b ∈ pre, isThrows2 b :=
        fun b hb => h b (List.mem_cons_of_mem _ hb)
      cases pre with
      | nil =>
          show (httpLoop2 (made + 1) (elapsed + adt + 1000) (sleepAcc + 1000)
              ([] ++ HttpAttempt2.resolves st txt body dt :: post)).duration = dt
          exact ih hrest _ _ _
      | cons b pre2 =>
          show (httpLoop2 (made + 1) (elapsed + adt + 1000) (sleepAcc + 1000)
              ((b :: pre2) ++ HttpAttempt2.resolves st txt body dt :: post)).duration = dt
          exact ih hrest _ _ _

/-- Helper for claim C3: in the ICMP loop, when every attempt before the
deciding one threw, a resolving ping records as duration everything
elapsed since the check began: the accumulated elapsed time, the wall
times of the failed attempts, one 1000 ms sleep per failed attempt, and
the deciding attempt itself. -/
theorem icmpLoop2_duration_of_ping (pre : List IcmpAttempt) (alive : Bool)
    (errOut : Option String) (dt : ℕ) (post : List IcmpAttempt) :
    (∀ a ∈ pre, isThrowsIcmp a) →
    ∀ made elapsed sleepAcc,
      (icmpLoop2 made elapsed sleepAcc
          (pre ++ IcmpAttempt.pings alive errOut dt :: post)).duration
        = elapsed + icmpElapsedBudget pre + dt := by
  induction pre with
  | nil =>
      intro _ made elapsed sleepAcc
      show elapsed + dt = elapsed + icmpElapsedBudget [] + dt
      simp [icmpElapsedBudget]
  | cons a pre ih =>
      intro h made elapsed sleepAcc
      obtain ⟨msg, adt, rfl⟩ := h a (List.mem_cons_self a pre)
      have hrest : ∀ b ∈ pre, isThrowsIcmp b :=
        fun b hb => h b (List.mem_cons_of_mem _ hb)
      have harith : (elapsed + adt + 1000) + icmpElapsedBudget pre + dt
          = elapsed + icmpElapsedBudget (IcmpAttempt.throws msg adt :: pre) + dt := by
        simp [icmpElapsedBudget, icmpAttemptElapsed, List.length_cons]
        ring
      cases pre with
      | nil =>
          have h2 := ih hrest (made + 1) (elapsed + adt + 1000) (sleepAcc + 1000)
          calc (icmpLoop2 (made + 1) (elapsed + adt + 1000) (sleepAcc + 1000)
                  ([] ++ IcmpAttempt.pings alive errOut dt :: post)).duration
              = (elapsed + adt + 1000) + icmpElapsedBudget [] + dt := h2
            _ = elapsed + icmpElapsedBudget (IcmpAttempt.throws msg adt :: []) + dt := harith
      | cons b pre2 =>
          have h2 := ih hrest (made + 1) (elapsed + adt + 1000) (sleepAcc + 1000)
          calc (icmpLoop2 (made + 1) (elapsed + adt + 1000) (sleepAcc + 1000)
                  ((b :: pre2) ++ IcmpAttempt.pings alive errOut dt :: post)).duration
              = (elapsed + adt + 1000) + icmpElapsedBudget (b :: pre2) + dt := h2
            _ = elapsed + icmpElapsedBudget (IcmpAttempt.throws msg adt :: b :: pre2) + dt :=
                harith

/-- Claim C3, amended: duration excludes earlier failed attempts and the
inter-retry sleeps only in the part_002 HTTP path and only when the
outcome is decided by a resolved fetch (then it is that single request
wall time); on the ICMP path the recorded duration is cumulative — the
failed attempts wall times, one 1000 ms sleep per failed attempt, and
the deciding ping (the part_001 HTTP path measures cumulatively in the
same way). -/
theorem claim3_amended_duration_convention :
    (∀ (pre : List HttpAttempt2) (st : ℕ) (txt : String) (body : BodyParse)
        (dt : ℕ) (post : List HttpAttempt2),
      (∀ a ∈ pre, isThrows2 a) →
      (checkHttpService2
          (pre ++ HttpAttempt2.resolves st txt body dt :: post)).duration = dt) ∧
    (∀ (pre : List IcmpAttempt) (alive : Bool) (errOut : Option String)
        (dt : ℕ) (post : List IcmpAttempt),
      (∀ a ∈ pre, isThrowsIcmp a) →
      (checkIcmpService2
          (pre ++ IcmpAttempt.pings alive errOut dt :: post)).duration
        = icmpElapsedBudget pre + dt) := by
  constructor
  · intro pre st txt body dt post h
    exact httpLoop2_duration_of_resolve pre st txt body dt post h 0 0 0
  · intro pre alive errOut dt post h
    have h2 := icmpLoop2_duration_of_ping pre alive errOut dt post h 0 0 0
    simpa using h2

/-- Witness for the amended claim C3 at concrete inputs: one thrown
attempt then a deciding resolution. -/
theorem claim3_amended_witness :
    (checkHttpService2 [HttpAttempt2.throws "Error" "connect failed" 50,
        HttpAttempt2.resolves 200 "" (BodyParse.value (Json.arr [])) 30]).duration
      = 30 ∧
    (checkIcmpService2 [IcmpAttempt.throws "boom" 50,
        IcmpAttempt.pings true none 30]).duration
      = icmpElapsedBudget [IcmpAttempt.throws "boom" 50] + 30 := by
  constructor
  · have h := claim3_amended_duration_convention.1
      [HttpAttempt2.throws "Error" "connect failed" 50] 200 ""
      (BodyParse.value (Json.arr [])) 30 []
      (by
        intro a ha
        simp only [List.mem_singleton] at ha
        subst ha
        exact ⟨"Error", "connect failed", 50, rfl⟩)
    simpa using h
  · have h := claim3_amended_duration_convention.2
      [IcmpAttempt.throws "boom" 50] true none 30 []
      (by
        intro a ha
        simp only [List.mem_singleton] at ha
        subst ha
        exact ⟨"boom", 50, rfl⟩)
    simpa using h

/-- Helper for claim C6: while every later request arrives strictly
before the pending timer would fire, the event loop performs no write and
the pending save always tracks the latest request, scheduled one full
window after it. -/
theorem debounce_fold_pending (rest : List (ℤ × StorageData)) :
    ∀ (t : ℤ) (s : StorageData) (ws : List (ℤ × StorageData)) (tl : ℤ)
      (sl : StorageData),
      withinWindow ((t, s) :: rest) = true →
      ((t, s) :: rest).getLast? = some (tl, sl) →
      List.foldl debounceStep (ws, some ⟨t + saveDebounceMs, s⟩) rest =
        (ws, some ⟨tl + saveDebounceMs, sl⟩) := by
  induction rest with
  | nil =>
      intro t s ws tl sl _ hl
      simp only [List.getLast?_singleton, Option.some.injEq, Prod.mk.injEq] at hl
      obtain ⟨rfl, rfl⟩ := hl
      rfl
  | cons b rest ih =>
      intro t s ws tl sl hw hl
      rw [withinWindow, Bool.and_eq_true, decide_eq_true_eq] at hw
      obtain ⟨hb, hrest⟩ := hw
      rw [List.foldl_cons]
      have hstep : debounceStep (ws, some ⟨t + saveDebounceMs, s⟩) b =
          (ws, some ⟨b.1 + saveDebounceMs, b.2⟩) := by
        rw [debounceStep,
          if_neg (show ¬((⟨t + saveDebounceMs, s⟩ : PendingSave).fireAt ≤ b.1) by
            show ¬(t + saveDebounceMs ≤ b.1)
            omega)]
      rw [hstep]
      have hl2 : ((b.1, b.2) :: rest).getLast? = some (tl, sl) := by
        rw [List.getLast?_cons_cons] at hl
        simpa using hl
      exact ih b.1 b.2 ws tl sl (by simpa using hrest) hl2

/-- Claim C6 (confirmed): any number of debouncedSave requests all issued
within one debounce window of each other (each strictly less than 5000 ms
after the previous one, so each clearTimeout cancels the pending timer
before it can fire) result in exactly one physical write; that write
carries the document passed with the last request (stamped by save with
the write time, as every save is) and happens one full window after the
last request, not the first. -/
theorem claim6_debounce_coalescing :
    ∀ (reqs : List (ℤ × StorageData)) (tl : ℤ) (sl : StorageData),
      withinWindow reqs = true →
      reqs.getLast? = some (tl, sl) →
      processRequests reqs =
        [(tl + saveDebounceMs, { sl with lastUpdated := tl + saveDebounceMs })] := by
  intro reqs tl sl hw hl
  cases reqs with
  | nil => simp at hl
  | cons a rest =>
      unfold processRequests
      rw [List.foldl_cons]
      have hstep : debounceStep ([], none) a =
          ([], some ⟨a.1 + saveDebounceMs, a.2⟩) := rfl
      rw [hstep]
      rw [debounce_fold_pending rest a.1 a.2 [] tl sl (by simpa using hw)
        (by simpa using hl)]
      rfl

/-- Witness for claim C6: two requests 100 ms apart produce the single
write, 5000 ms after the second request, of the second document. -/
theorem claim6_witness :
    withinWindow [((0 : ℤ), initializeEmptyState 0), (100, initializeEmptyState 7)]
      = true ∧
    processRequests
        [((0 : ℤ), initializeEmptyState 0), (100, initializeEmptyState 7)] =
      [(5100, { initializeEmptyState 7 with lastUpdated := 5100 })] := by
  refine ⟨by decide, ?_⟩
  have h := claim6_debounce_coalescing
    [((0 : ℤ), initializeEmptyState 0), (100, initializeEmptyState 7)]
    100 (initializeEmptyState 7) (by decide) (by decide)
  simpa using h

/-- Helper for claim C8: addService leaves the configs list alone and
only extends the status list, so it preserves the property that every
config id has a matching status id. -/
theorem configStatusInv_addService (s : StorageData) (c : ServiceConfig)
    (now : ℤ) (h : configStatusInv s = true) :
    configStatusInv (addService s c now) = true := by
  simp only [configStatusInv, addService] at h ⊢
  rw [List.all_eq_true] at h ⊢
  intro x hx
  have hx2 := h x hx
  rw [List.any_eq_true] at hx2 ⊢
  obtain ⟨st, hst, hid⟩ := hx2
  exact ⟨st, List.mem_append_left _ hst, hid⟩

/-- Helper for claim C8: removeService filters the same id out of both
lists, so a surviving config still has its matching surviving status. -/
theorem configStatusInv_removeService (s : StorageData) (serviceId : String)
    (h : configStatusInv s = true) :
    configStatusInv (removeService s serviceId) = true := by
  simp only [configStatusInv, removeService] at h ⊢
  rw [List.all_eq_true] at h ⊢
  intro c hc
  rw [List.mem_filter] at hc
  obtain ⟨hc1, hc2⟩ := hc
  have hany := h c hc1
  rw [List.any_eq_true] at hany ⊢
  obtain ⟨st, hst, hid⟩ := hany
  refine ⟨st, ?_, hid⟩
  rw [List.mem_filter]
  refine ⟨hst, ?_⟩
  rw [bne_iff_ne] at hc2 ⊢
  rw [beq_iff_eq] at hid
  rw [hid]
  exact hc2

/-- Claim C8, amended: the correspondence the store operations actually
maintain runs the other way round — after every sequence of addService
and removeService operations, every ServiceConfig id in the stored
configs has a corresponding ServiceStatus id (removeService removes both
sides; addService adds only the status entry, so a status id need not
have a config id, which is what refutes the claim as stated). -/
theorem claim8_amended_config_ids_have_status :
    ∀ (ops : List StorageOp) (s : StorageData),
      configStatusInv s = true → configStatusInv (applyOps s ops) = true := by
  intro ops
  induction ops with
  | nil => intro s h; exact h
  | cons op ops ih =>
      intro s h
      have h2 : configStatusInv (applyOp s op) = true := by
        cases op with
        | add c now => exact configStatusInv_addService s c now h
        | remove serviceId => exact configStatusInv_removeService s serviceId h
      exact ih (applyOp s op) h2

/-- Witness for the amended claim C8: a store holding one matched
config-status pair keeps the correspondence across an addService and a
removeService. -/
theorem claim8_amended_witness :
    configStatusInv pairedState = true ∧
    configStatusInv
        (applyOps pairedState [StorageOp.add cfgA 5, StorageOp.remove "b"]) =
      true :=
  ⟨by decide,
    claim8_amended_config_ids_have_status
      [StorageOp.add cfgA 5, StorageOp.remove "b"] pairedState (by decide)⟩

/-- Claim C9, amended: after UptimeSlave.removeService the cron task is
gone, so no new check for the id can be spawned by a tick; but a check
already in flight still sends its report on completion, because the cron
callback has no is-this-service-still-registered guard before
sendReport — the claim as stated fails on exactly that in-flight case. -/
theorem claim9_amended_removal_behaviour :
    ∀ (s : SlaveState) (id : String),
      id ∉ (slaveStep s (SlaveEvent.removeSvc id)).tasks ∧
      (id ∉ s.tasks → slaveStep s (SlaveEvent.tick id) = s) ∧
      (id ∈ s.inFlight →
        (slaveStep s (SlaveEvent.complete id)).reports = s.reports ++ [id]) := by
  intro s id
  refine ⟨?_, ?_, ?_⟩
  · simp [slaveStep, List.mem_filter]
  · intro h
    simp [slaveStep, h]
  · intro h
    simp [slaveStep, h]

/-- Witness for the amended claim C9 at a concrete state with one
registered task b and one in-flight check a. -/
theorem claim9_amended_witness :
    "a" ∉ (slaveStep ⟨["b"], ["a"], []⟩ (SlaveEvent.removeSvc "a")).tasks ∧
    slaveStep ⟨["b"], ["a"], []⟩ (SlaveEvent.tick "a") = ⟨["b"], ["a"], []⟩ ∧
    (slaveStep ⟨["b"], ["a"], []⟩ (SlaveEvent.complete "a")).reports =
      [] ++ ["a"] := by
  obtain ⟨h1, h2, h3⟩ :=
    claim9_amended_removal_behaviour ⟨["b"], ["a"], []⟩ "a"
  exact ⟨h1, h2 (by decide), h3 (by decide)⟩

/-- Claim C1, amended: when every probe attempt observes an HTTP 500
response, checkHttpService (either variant) makes exactly one probe
attempt and sleeps no inter-retry delay at all, returning success false
with an error of the form HTTP 500 followed by the status text — a
resolved fetch, whatever its status, breaks the retry loop, so the
retryAttempts budget and the fixed 1000 ms delay apply only to attempts
that throw. -/
theorem claim1_amended_single_attempt_on_http500 :
    ∀ (l₁ : List HttpAttempt1) (l₂ : List HttpAttempt2),
      l₁ ≠ [] →
      (∀ a ∈ l₁, ∃ txt dt, a = HttpAttempt1.resolves 500 txt dt) →
      l₂ ≠ [] →
      (∀ a ∈ l₂, ∃ txt body dt, a = HttpAttempt2.resolves 500 txt body dt) →
      ((checkHttpService1 l₁).attemptsMade = 1 ∧
        (checkHttpService1 l₁).success = false ∧
        (checkHttpService1 l₁).sleepMs = 0 ∧
        ∃ txt, (checkHttpService1 l₁).error = some ("HTTP 500: " ++ txt)) ∧
      ((checkHttpService2 l₂).attemptsMade = 1 ∧
        (checkHttpService2 l₂).success = false ∧
        (checkHttpService2 l₂).sleepMs = 0 ∧
        ∃ txt, (checkHttpService2 l₂).error = some ("HTTP 500: " ++ txt)) := by
  intro l₁ l₂ h₁ hall₁ h₂ hall₂
  constructor
  · cases l₁ with
    | nil => exact absurd rfl h₁
    | cons a t =>
        obtain ⟨txt, dt, rfl⟩ := hall₁ a (List.mem_cons_self a t)
        exact ⟨rfl, rfl, rfl, txt, rfl⟩
  · cases l₂ with
    | nil => exact absurd rfl h₂
    | cons a t =>
        obtain ⟨txt, body, dt, rfl⟩ := hall₂ a (List.mem_cons_self a t)
        exact ⟨rfl, rfl, rfl, txt, rfl⟩

/-- Witness for the amended claim C1 on one-element attempt lists that
observe an HTTP 500 response. -/
theorem claim1_amended_witness :
    ((checkHttpService1 [resolve500]).attemptsMade = 1 ∧
      (checkHttpService1 [resolve500]).success = false ∧
      (checkHttpService1 [resolve500]).sleepMs = 0 ∧
      ∃ txt, (checkHttpService1 [resolve500]).error = some ("HTTP 500: " ++ txt)) ∧
    ((checkHttpService2 [resolve500v2]).attemptsMade = 1 ∧
      (checkHttpService2 [resolve500v2]).success = false ∧
      (checkHttpService2 [resolve500v2]).sleepMs = 0 ∧
      ∃ txt, (checkHttpService2 [resolve500v2]).error =
        some ("HTTP 500: " ++ txt)) := by
  exact claim1_amended_single_attempt_on_http500 [resolve500] [resolve500v2]
    (List.cons_ne_nil _ _)
    (by
      intro a ha
      simp only [List.mem_singleton] at ha
      subst ha
      exact ⟨"Internal Server Error", 10, rfl⟩)
    (List.cons_ne_nil _ _)
    (by
      intro a ha
      simp only [List.mem_singleton] at ha
      subst ha
      exact ⟨"Internal Server Error", BodyParse.malformed, 10, rfl⟩)

/-- Claim C10 (confirmed): in the part_002 variant, a check decided by a
resolved probe succeeds exactly when the response status is 200 and the
body parses to a JSON array every element of which passes the
service-status shape validation (string id and name, type http or icmp,
numeric interval and timeout, boolean lastStatus, array assignedSlaves);
any other status, a non-array body, unparseable JSON, or a validation
throw yields success false. -/
theorem claim10_http2_success_iff_valid_array :
    ∀ (status : ℕ) (statusText : String) (body : BodyParse) (dt : ℕ)
      (rest : List HttpAttempt2),
      (checkHttpService2
          (HttpAttempt2.resolves status statusText body dt :: rest)).success = true ↔
        status = 200 ∧
          ∃ elems, body = BodyParse.value (Json.arr elems) ∧
            jsEvery elems = some true := by
  intro status txt body dt rest
  have hred : (checkHttpService2
      (HttpAttempt2.resolves status txt body dt :: rest)).success
      = (handleResponse2 status txt body).1 := rfl
  rw [hred, handleResponse2.eq_def]
  by_cases hst : status = 200
  · subst hst
    rw [if_pos rfl]
    cases body with
    | malformed => simp
    | value j =>
        cases j with
        | null => simp
        | bool b => simp
        | num q => simp
        | str s => simp
        | obj fields => simp
        | arr elems =>
            rcases hev : jsEvery elems with _ | b
            · simp [hev]
            · cases b
              · simp [hev]
              · simp [hev]
  · rw [if_neg hst]
    simp [hst]
